import Mathlib

/-!
Verification of the transcription orchestration pipeline of
`audio-transcribers` (`src/audio.py`) against its natural-language
specification.

Numeric values that are Python `float`s in the source are modelled as exact
rationals (`ℚ`); Python's `int(...)` truncation, `round(...)` (banker's
rounding, half to even), floor division `//` and modulo `%` are embedded
explicitly.  Strings are Lean `String`s; Python's `f"{n:0wd}"` zero-padding
is embedded by `pyPad`.  The Streamlit script's effectful main flow is
embedded as a pure function from oracles (outcomes of the external world:
disk writes, model loads, engine runs, file removals) to a record of the
observable outcome of one script run.
-/

/-- Python `int(x)` on a rational: truncation toward zero. -/
def pytrunc (q : ℚ) : ℤ :=
  if q < 0 then Int.ceil q else Int.floor q

/-- Python `round(x)` (no `ndigits`): nearest integer, ties to even. -/
def pyround (q : ℚ) : ℤ :=
  let f := Int.floor q
  let r := q - (f : ℚ)
  if r < 1/2 then f
  else if 1/2 < r then f + 1
  else if f % 2 = 0 then f else f + 1

/-- Left-pad a string with `'0'` characters up to width `w`. -/
def pad (s : String) (w : ℕ) : String :=
  String.mk (List.replicate (w - s.length) '0') ++ s

/-- Python `f"{n:0wd}"`: zero-pad the digits to total width `w`; a negative
number keeps its sign in front of the padded digits. -/
def pyPad (n : ℤ) (w : ℕ) : String :=
  if n < 0 then "-" ++ pad (toString n.natAbs) (w - 1)
  else pad (toString n.natAbs) w

/-- `format_timestamp` from `src/audio.py` (lines 26-33):
`ms = int(round((seconds - int(seconds)) * 1000))`, `total = int(seconds)`,
`s = total % 60`, `m = (total // 60) % 60`, `h = total // 3600`, rendered as
`f"{h:02d}:{m:02d}:{s:02d},{ms:03d}"`.  Python `//` and `%` are floor
division and floor modulo, embedded as `Int.fdiv` / `Int.fmod`. -/
def format_timestamp (seconds : ℚ) : String :=
  let ms : ℤ := pyround ((seconds - (pytrunc seconds : ℚ)) * 1000)
  let total : ℤ := pytrunc seconds
  let s : ℤ := Int.fmod total 60
  let m : ℤ := Int.fmod (Int.fdiv total 60) 60
  let h : ℤ := Int.fdiv total 3600
  pyPad h 2 ++ ":" ++ pyPad m 2 ++ ":" ++ pyPad s 2 ++ "," ++ pyPad ms 3

/-- Modelled from the spec: the `HH:MM:SS,mmm` encoding of §4.4 for a
non-negative number of seconds — zero-padded two-digit hours, minutes and
seconds of the whole-second count, and zero-padded three-digit milliseconds
equal to the fractional part rounded to the nearest millisecond. -/
def srtShapeEncode (q : ℚ) : String :=
  let t : ℕ := (Int.floor q).toNat
  let ms : ℤ := pyround ((q - (Int.floor q : ℚ)) * 1000)
  pad (toString (t / 3600)) 2 ++ ":" ++ pad (toString (t % 3600 / 60)) 2 ++
    ":" ++ pad (toString (t % 60)) 2 ++ "," ++ pad (toString ms.toNat) 3

/-- Does a string have the `HH:MM:SS,mmm` shape: exactly twelve characters,
digits in the time and millisecond positions, `':'`, `':'`, `','` between? -/
def srtShape (s : String) : Bool :=
  match s.data with
  | [a, b, c, d, e, f, g, h, i, j, k, l] =>
    a.isDigit && b.isDigit && c = ':' && d.isDigit && e.isDigit && f = ':' &&
      g.isDigit && h.isDigit && i = ',' && j.isDigit && k.isDigit && l.isDigit
  | _ => false

/-! ### Helper lemmas for the timestamp codec -/

theorem floor_le_pyround (q : ℚ) : Int.floor q ≤ pyround q := by
  unfold pyround
  dsimp only
  split_ifs <;> omega

theorem pyround_nonneg {q : ℚ} (h : 0 ≤ q) : 0 ≤ pyround q :=
  le_trans (Int.floor_nonneg.mpr h) (floor_le_pyround q)

theorem pytrunc_of_nonneg {q : ℚ} (h : 0 ≤ q) : pytrunc q = Int.floor q := by
  rw [pytrunc, if_neg (not_lt.mpr h)]

theorem pyPad_natCast (k : ℕ) (w : ℕ) : pyPad (k : ℤ) w = pad (toString k) w := by
  rw [pyPad, if_neg (by omega)]
  congr 1

theorem int_fdiv_natCast (a b : ℕ) : Int.fdiv (a : ℤ) (b : ℤ) = ((a / b : ℕ) : ℤ) :=
  (Int.ofNat_fdiv a b).symm

theorem int_fmod_natCast (a b : ℕ) : Int.fmod (a : ℤ) (b : ℤ) = ((a % b : ℕ) : ℤ) :=
  (Int.ofNat_fmod a b).symm

/-- Evaluation helper: `format_timestamp` expressed through the truncated
whole-second count and the rounded milliseconds. -/
theorem format_timestamp_eval (q : ℚ) (t ms : ℤ)
    (ht : pytrunc q = t) (hms : pyround ((q - (t : ℚ)) * 1000) = ms) :
    format_timestamp q =
      pyPad (Int.fdiv t 3600) 2 ++ ":" ++ pyPad (Int.fmod (Int.fdiv t 60) 60) 2 ++
        ":" ++ pyPad (Int.fmod t 60) 2 ++ "," ++ pyPad ms 3 := by
  simp only [format_timestamp, ht, hms]

theorem pytrunc_599995 : pytrunc (119999/2000 : ℚ) = 59 := by
  rw [pytrunc_of_nonneg (by norm_num)]
  norm_num

theorem pyround_599995 : pyround (((119999 : ℚ)/2000 - ((59 : ℤ) : ℚ)) * 1000) = 1000 := by
  rw [show ((119999 : ℚ)/2000 - ((59 : ℤ) : ℚ)) * 1000 = 1999/2 by push_cast; ring_nf]
  have hf : Int.floor ((1999 : ℚ)/2) = 999 := by norm_num
  simp only [pyround, hf]
  norm_num

/-- C1: on the source code as written, rounding the fractional part of
`59.9995` up to `1000` milliseconds is NOT carried into the whole-second
component: `format_timestamp` renders the millisecond field as the four
characters `1000`, producing `"00:00:59,1000"` instead of the
`"00:01:00,000"` that the specification requires.  (The spec itself flags
this as a source-level defect, §4.4/§9.) -/
theorem format_timestamp_overflow_defect :
    format_timestamp (119999/2000 : ℚ) = "00:00:59,1000" ∧
      format_timestamp (119999/2000 : ℚ) ≠ "00:01:00,000" := by
  have h := format_timestamp_eval (119999/2000 : ℚ) 59 1000 pytrunc_599995 pyround_599995
  rw [h]
  constructor
  · decide
  · decide

/-- C7: `format_timestamp 0 = "00:00:00,000"`,
`format_timestamp 3661.5 = "01:01:01,500"`, and for every non-negative
input whose rounded milliseconds are below `1000` the result is the
`HH:MM:SS,mmm` encoding of §4.4 (zero-padded two-digit hours, minutes and
seconds of the whole-second count, and zero-padded three-digit milliseconds
equal to the fractional part rounded to the nearest millisecond). -/
theorem format_timestamp_spec :
    format_timestamp 0 = "00:00:00,000" ∧
    format_timestamp (7323/2) = "01:01:01,500" ∧
    ∀ q : ℚ, 0 ≤ q → pyround ((q - (pytrunc q : ℚ)) * 1000) < 1000 →
      format_timestamp q = srtShapeEncode q := by
  refine ⟨?_, ?_, ?_⟩
  · have ht : pytrunc (0 : ℚ) = 0 := by rw [pytrunc_of_nonneg le_rfl]; norm_num
    have hms : pyround (((0 : ℚ) - ((0 : ℤ) : ℚ)) * 1000) = 0 := by
      rw [show ((0 : ℚ) - ((0 : ℤ) : ℚ)) * 1000 = 0 by push_cast; ring_nf]
      have hf : Int.floor ((0 : ℚ)) = 0 := by norm_num
      simp only [pyround, hf]
      norm_num
    rw [format_timestamp_eval 0 0 0 ht hms]
    decide
  · have ht : pytrunc (7323/2 : ℚ) = 3661 := by
      rw [pytrunc_of_nonneg (by norm_num)]
      norm_num
    have hms : pyround (((7323 : ℚ)/2 - ((3661 : ℤ) : ℚ)) * 1000) = 500 := by
      rw [show ((7323 : ℚ)/2 - ((3661 : ℤ) : ℚ)) * 1000 = 500 by push_cast; ring_nf]
      have hf : Int.floor ((500 : ℚ)) = 500 := by norm_num
      simp only [pyround, hf]
      norm_num
    rw [format_timestamp_eval (7323/2) 3661 500 ht hms]
    decide
  · intro q hq hlt
    have ht : pytrunc q = Int.floor q := pytrunc_of_nonneg hq
    obtain ⟨n, hn⟩ := Int.eq_ofNat_of_zero_le (Int.floor_nonneg.mpr hq)
    have hfl : (((n : ℤ)) : ℚ) ≤ q := hn ▸ Int.floor_le q
    have hms0 : 0 ≤ pyround ((q - (((n : ℤ)) : ℚ)) * 1000) :=
      pyround_nonneg (mul_nonneg (sub_nonneg.mpr hfl) (by norm_num))
    obtain ⟨k, hk⟩ := Int.eq_ofNat_of_zero_le hms0
    simp only [format_timestamp, srtShapeEncode, ht, hn, hk]
    rw [show ((3600 : ℤ)) = ((3600 : ℕ) : ℤ) from rfl,
      show ((60 : ℤ)) = ((60 : ℕ) : ℤ) from rfl,
      int_fdiv_natCast, int_fdiv_natCast, int_fmod_natCast, int_fmod_natCast,
      pyPad_natCast, pyPad_natCast, pyPad_natCast, pyPad_natCast]
    rw [show ((n : ℤ)).toNat = n by omega, show ((k : ℤ)).toNat = k by omega]
    rw [show n / 60 % 60 = n % 3600 / 60 by omega]

/-- C7 witness: the third part of `format_timestamp_spec` applied at the
concrete input `3661.5`. -/
theorem format_timestamp_spec_witness :
    format_timestamp (7323/2) = srtShapeEncode (7323/2) := by
  refine format_timestamp_spec.2.2 (7323/2) (by norm_num) ?_
  have ht : pytrunc (7323/2 : ℚ) = 3661 := by
    rw [pytrunc_of_nonneg (by norm_num)]
    norm_num
  rw [ht, show ((7323 : ℚ)/2 - ((3661 : ℤ) : ℚ)) * 1000 = 500 by push_cast; ring_nf]
  have hf : Int.floor ((500 : ℚ)) = 500 := by norm_num
  simp only [pyround, hf]
  norm_num

/-- C10: `format_timestamp` is a total function on ℚ (the source never
raises for and never rejects a negative input), and on the negative input
`-0.5` its output `"00:00:00,-500"` does not have the `HH:MM:SS,mmm`
shape. -/
theorem format_timestamp_total_on_negatives :
    (∀ q : ℚ, ∃ out : String, format_timestamp q = out) ∧
    format_timestamp (-1/2) = "00:00:00,-500" ∧
    srtShape (format_timestamp (-1/2)) = false := by
  have ht : pytrunc (-1/2 : ℚ) = 0 := by
    rw [pytrunc, if_pos (by norm_num)]
    norm_num
  have hms : pyround (((-1 : ℚ)/2 - ((0 : ℤ) : ℚ)) * 1000) = -500 := by
    rw [show ((-1 : ℚ)/2 - ((0 : ℤ) : ℚ)) * 1000 = -500 by push_cast; ring_nf]
    have hf : Int.floor ((-500 : ℚ)) = -500 := by norm_num
    simp only [pyround, hf]
    norm_num
  have h := format_timestamp_eval (-1/2) 0 (-500) ht hms
  refine ⟨fun q => ⟨format_timestamp q, rfl⟩, ?_, ?_⟩
  · rw [h]; decide
  · rw [h]; decide

/-! ### Subtitle renderer (`segments_to_srt`, lines 35-46) -/

/-- One time-stamped transcript segment: the `start`, `end` and `text`
entries of a whisper segment dict (`seg["start"]`, `seg["end"]`,
`seg.get("text", "")`).  The `end` key is named `endTime` because `end` is
reserved in Lean. -/
structure Segment where
  start : ℚ
  endTime : ℚ
  text : String

/-- The `lines` list accumulated by the loop of `segments_to_srt`
(`for idx, seg in enumerate(segments, start=1)`): for each segment, the
1-based index, the time-range line, the stripped text, and a blank line. -/
def srtLines : List Segment → ℕ → List String
  | [], _ => []
  | seg :: rest, idx =>
    toString idx ::
      (format_timestamp seg.start ++ " --> " ++ format_timestamp seg.endTime) ::
      seg.text.trim :: "" :: srtLines rest (idx + 1)

/-- `segments_to_srt` from `src/audio.py`: the accumulated lines joined by
`"\n"`. -/
def segments_to_srt (segments : List Segment) : String :=
  String.intercalate "\n" (srtLines segments 1)

/-- Modelled from the spec (§4.5): the four-line block emitted for the
segment at 1-based position `i` — the index, the time range rendered with
the Timestamp Codec on `start` and `end`, the trimmed text, and a blank
separator line. -/
def specBlock (i : ℕ) (seg : Segment) : List String :=
  [toString i,
    format_timestamp seg.start ++ " --> " ++ format_timestamp seg.endTime,
    seg.text.trim, ""]

/-- Modelled from the spec (§4.5): the document is the concatenation of the
blocks for positions `1..N`, joined by newlines. -/
def specRender (segments : List Segment) : String :=
  String.intercalate "\n"
    (List.zipWith specBlock (List.range' 1 segments.length) segments).flatten

theorem srtLines_eq_blocks (segments : List Segment) :
    ∀ i : ℕ, srtLines segments i =
      (List.zipWith specBlock (List.range' i segments.length) segments).flatten := by
  induction segments with
  | nil => intro i; rfl
  | cons seg rest ih =>
    intro i
    simp [srtLines, List.range', specBlock, ih (i + 1)]

theorem srtLines_length (segments : List Segment) :
    ∀ i : ℕ, (srtLines segments i).length = 4 * segments.length := by
  induction segments with
  | nil => intro i; rfl
  | cons seg rest ih =>
    intro i
    simp [srtLines, ih (i + 1), List.length_cons]
    ring

/-- C4: `segments_to_srt` renders the empty segment list to the empty
document, and for every segment list it emits exactly `N` four-line blocks
in order — the 1-based index, the `"{start} --> {end}"` line built with
`format_timestamp`, the trimmed text, a blank separator — joined by
newlines (`specRender`); its line list has exactly `4 * N` entries. -/
theorem segments_to_srt_spec :
    segments_to_srt [] = "" ∧
    (∀ segments : List Segment, segments_to_srt segments = specRender segments) ∧
    (∀ segments : List Segment,
      (srtLines segments 1).length = 4 * segments.length) := by
  refine ⟨rfl, ?_, ?_⟩
  · intro segments
    rw [segments_to_srt, specRender, srtLines_eq_blocks segments 1]
  · intro segments
    exact srtLines_length segments 1

/-! ### Model registry (`load_whisper_model` under `@st.cache_resource`,
lines 48-56) -/

/-- `load_whisper_model` together with its `@st.cache_resource` decorator,
modelled as an explicit process-wide cache keyed by the variant name.  A
cache hit returns the stored handle without invoking the underlying loader;
a miss invokes the loader (`whisper.load_model`, the `loadModel` oracle)
once and stores the handle; a loader failure is re-raised and nothing is
cached.  The result carries the returned handle, the updated cache and the
number of loader invocations performed by this call. -/
def load_whisper_model {α : Type} (loadModel : String → Except String α)
    (cache : List (String × α)) (model_size : String) :
    Except String (α × List (String × α) × ℕ) :=
  match cache.lookup model_size with
  | some m => .ok (m, cache, 0)
  | none =>
    match loadModel model_size with
    | .ok m => .ok (m, (model_size, m) :: cache, 1)
    | .error e => .error e

/-- C5: two sequential calls of the model loader for the same variant
return the identical cached handle and perform the expensive load exactly
once: the first call (empty cache) invokes the loader once and stores the
handle, the second call returns that same handle with zero loader
invocations, and more generally any call for an already-cached variant
returns the cached handle without reloading. -/
theorem load_whisper_model_idempotent {α : Type}
    (loadModel : String → Except String α) (v : String) (m : α)
    (h : loadModel v = .ok m) :
    load_whisper_model loadModel [] v = .ok (m, [(v, m)], 1) ∧
    load_whisper_model loadModel [(v, m)] v = .ok (m, [(v, m)], 0) ∧
    (∀ (cache : List (String × α)) (hm : α), cache.lookup v = some hm →
      load_whisper_model loadModel cache v = .ok (hm, cache, 0)) := by
  refine ⟨?_, ?_, ?_⟩
  · simp [load_whisper_model, h]
  · simp [load_whisper_model, List.lookup]
  · intro cache hm hl
    simp [load_whisper_model, hl]

/-- C5 witness: the registry theorem applied to a concrete loader for the
variant `"base"`. -/
theorem load_whisper_model_idempotent_witness :
    load_whisper_model (fun _ => (.ok 7 : Except String ℕ)) [] "base" =
      .ok (7, [("base", 7)], 1) ∧
    load_whisper_model (fun _ => (.ok 7 : Except String ℕ)) [("base", 7)] "base" =
      .ok (7, [("base", 7)], 0) := by
  have h := load_whisper_model_idempotent (fun _ => (.ok 7 : Except String ℕ)) "base" 7 rfl
  exact ⟨h.1, h.2.1⟩

/-! ### Transcription invocation (line 123) -/

/-- A transcript result: the `"text"` and `"segments"` entries of the dict
returned by `model.transcribe`. -/
structure TranscriptResult where
  text : String
  segments : List Segment

/-- A classified transcription failure: the script catches `RuntimeError`
and generic `Exception` separately (lines 124-129). -/
inductive TranscriptionErr where
  | runtime (msg : String)
  | other (msg : String)

/-- The transcription invocation of `src/audio.py` line 123:
`model.transcribe(temp_path, language="en", temperature=0.0)`.  The
`engine` oracle abstracts the whisper engine: it takes the model handle,
the staged file path, the language, the temperature, and a sampling seed
(the seed stands for whatever randomness the engine would draw on when
sampling).  The source fixes the language to `"en"` and the temperature to
`0`. -/
def transcribeCall {α : Type}
    (engine : α → String → String → ℚ → ℕ → Except TranscriptionErr TranscriptResult)
    (model : α) (temp_path : String) (seed : ℕ) :
    Except TranscriptionErr TranscriptResult :=
  engine model temp_path "en" 0 seed

/-- C6: the invocation always passes language `"en"` and temperature `0` to
the engine; consequently, for an engine that is deterministic at
temperature `0` (its output does not depend on the sampling seed there),
two invocations on the same model handle and the same staged file produce
identical results: the same `text` and the same segment (`start`, `end`,
`text`) at every index. -/
theorem transcribeCall_deterministic {α : Type}
    (engine : α → String → String → ℚ → ℕ → Except TranscriptionErr TranscriptResult)
    (hdet : ∀ m p s₁ s₂, engine m p "en" 0 s₁ = engine m p "en" 0 s₂)
    (model : α) (temp_path : String) (s₁ s₂ : ℕ) :
    transcribeCall engine model temp_path s₁ = engine model temp_path "en" 0 s₁ ∧
    transcribeCall engine model temp_path s₁ = transcribeCall engine model temp_path s₂ ∧
    ∀ r₁ r₂, transcribeCall engine model temp_path s₁ = .ok r₁ →
      transcribeCall engine model temp_path s₂ = .ok r₂ →
      r₁.text = r₂.text ∧ ∀ i, r₁.segments.get? i = r₂.segments.get? i := by
  refine ⟨rfl, hdet model temp_path s₁ s₂, ?_⟩
  intro r₁ r₂ h₁ h₂
  rw [transcribeCall] at h₁ h₂
  rw [hdet model temp_path s₁ s₂, h₂] at h₁
  cases h₁
  exact ⟨rfl, fun _ => rfl⟩

/-- C6 witness: the determinism theorem applied to a concrete
seed-independent engine and two distinct seeds. -/
theorem transcribeCall_deterministic_witness :
    transcribeCall (fun (_ : ℕ) _ _ _ _ => (.ok ⟨"", []⟩ : Except TranscriptionErr TranscriptResult)) 0 "p" 0 =
      (fun (_ : ℕ) _ _ _ _ => (.ok ⟨"", []⟩ : Except TranscriptionErr TranscriptResult)) 0 "p" "en" 0 0 ∧
    transcribeCall (fun (_ : ℕ) _ _ _ _ => (.ok ⟨"", []⟩ : Except TranscriptionErr TranscriptResult)) 0 "p" 0 =
      transcribeCall (fun (_ : ℕ) _ _ _ _ => (.ok ⟨"", []⟩ : Except TranscriptionErr TranscriptResult)) 0 "p" 1 ∧
    ∀ r₁ r₂,
      transcribeCall (fun (_ : ℕ) _ _ _ _ => (.ok ⟨"", []⟩ : Except TranscriptionErr TranscriptResult)) 0 "p" 0 = .ok r₁ →
      transcribeCall (fun (_ : ℕ) _ _ _ _ => (.ok ⟨"", []⟩ : Except TranscriptionErr TranscriptResult)) 0 "p" 1 = .ok r₂ →
      r₁.text = r₂.text ∧ ∀ i, r₁.segments.get? i = r₂.segments.get? i :=
  transcribeCall_deterministic
    (fun (_ : ℕ) _ _ _ _ => (.ok ⟨"", []⟩ : Except TranscriptionErr TranscriptResult))
    (fun _ _ _ _ => rfl) 0 "p" 0 1

/-! ### Media availability check and decoder-path fallback (lines 16-24) -/

/-- The process environment visible to the decoder fallback: the `PATH`
variable (`os.environ["PATH"]`). -/
structure Env where
  path : String

/-- `os.pathsep` (the source hardcodes a Windows ffmpeg directory). -/
def pathsep : String := ";"

/-- The one known installation directory hardcoded in `set_ffmpeg_path`. -/
def ffmpeg_dir : String := "C:\\ffmpeg-8.0-full_build\\bin"

/-- `is_ffmpeg_available` (lines 16-18): `shutil.which("ffmpeg") is not
None`, with the executable lookup abstracted as an oracle over the current
`PATH` contents. -/
def is_ffmpeg_available (which : String → Bool) (env : Env) : Bool :=
  which env.path

/-- `set_ffmpeg_path` (lines 20-24): if ffmpeg is not discoverable, prepend
the fallback directory to `PATH` (`ffmpeg_dir + os.pathsep + PATH`);
otherwise leave the environment untouched.  The function never consults the
filesystem about the fallback directory. -/
def set_ffmpeg_path (which : String → Bool) (env : Env) : Env :=
  if is_ffmpeg_available which env then env
  else { env with path := ffmpeg_dir ++ pathsep ++ env.path }

/-- C9: the fallback changes the executable search path only when the
decoder is not discoverable, in which case it prepends exactly the one
known installation directory; when the decoder is discoverable the
environment is left unchanged; and the operation is total for every lookup
oracle — it never fails, whether or not the fallback directory exists. -/
theorem set_ffmpeg_path_spec (which : String → Bool) (env : Env) :
    (is_ffmpeg_available which env = true → set_ffmpeg_path which env = env) ∧
    (is_ffmpeg_available which env = false →
      (set_ffmpeg_path which env).path = ffmpeg_dir ++ pathsep ++ env.path) := by
  constructor <;> intro h <;> simp [set_ffmpeg_path, h]

/-- C9 witness: the fallback theorem applied to a concrete environment in
which the decoder is not discoverable. -/
theorem set_ffmpeg_path_spec_witness :
    (set_ffmpeg_path (fun _ => false) ⟨"X"⟩).path = ffmpeg_dir ++ pathsep ++ "X" :=
  (set_ffmpeg_path_spec (fun _ => false) ⟨"X"⟩).2 rfl

/-! ### Request orchestrator (the main script flow, lines 72-173) -/

/-- The user-visible messages the uploaded-file script run can emit, in
source order:
`ffmpegFound` = `st.success` line 81; `ffmpegWarning` = `st.warning` lines
76-79; `fileInfo` = `st.write` line 96; `stagingError` = `st.error` line
106; `savedInfo` = `st.info` line 109; `modelLoadError` = `st.error` line
55 (inside `load_whisper_model`); `runtimeError` / `otherError` =
`st.error` lines 125 / 128; `failedWarning` = `st.warning` line 133;
`finishedSuccess` = `st.success` line 135. -/
inductive Msg where
  | ffmpegFound
  | ffmpegWarning
  | fileInfo
  | stagingError
  | savedInfo
  | modelLoadError
  | runtimeError
  | otherError
  | failedWarning
  | finishedSuccess
  deriving DecidableEq

/-- The outcomes of the external world during one script run with an
uploaded file, supplied as oracles: whether `shutil.which` finds ffmpeg
(after the fallback), whether writing the uploaded bytes to the temporary
file succeeds, the outcome of the model load, whether the user pressed the
transcribe button, the outcome of the engine call, and whether `os.remove`
on the staged file succeeds. -/
structure Oracles (α : Type) where
  decoderAvailable : Bool
  writeOk : Bool
  loadResult : Except String α
  transcribeBtn : Bool
  transcribeResult : Except TranscriptionErr TranscriptResult
  removeOk : Bool

/-- The observable outcome of one script run: the emitted messages, whether
an exception escaped the script to the presentation shell (`uncaught`),
whether the script halted through the controlled `st.stop` (`stopped`),
whether `os.remove` on the staged file was attempted, whether the staged
file is still on disk at the end, and whether the success outputs were
rendered (`completed`). -/
structure RunOutcome where
  messages : List Msg
  uncaught : Bool
  stopped : Bool
  removeAttempted : Bool
  stagedFilePresent : Bool
  completed : Bool
  deriving DecidableEq

/-- The uploaded-file flow of `src/audio.py` after the ffmpeg check (lines
94-173): staging `try`/`except` with `st.error` **and re-`raise`** (lines
100-107), model load with best-effort `os.remove` and `st.stop` on failure
(lines 111-116), optional transcription guarded by the button (lines
118-129), result rendering (lines 131-170), and the final best-effort
`os.remove` whose own failure is swallowed (lines 172-173).  A file staged
without the button ever being pressed is left on disk. -/
def runScriptCore {α : Type} (o : Oracles α) : RunOutcome :=
  if o.writeOk = false then
    { messages := [Msg.fileInfo, Msg.stagingError]
      uncaught := true
      stopped := false
      removeAttempted := false
      stagedFilePresent := true
      completed := false }
  else
    match o.loadResult with
    | .error _ =>
      { messages := [Msg.fileInfo, Msg.savedInfo, Msg.modelLoadError]
        uncaught := false
        stopped := true
        removeAttempted := true
        stagedFilePresent := !o.removeOk
        completed := false }
    | .ok _ =>
      if o.transcribeBtn = false then
        { messages := [Msg.fileInfo, Msg.savedInfo]
          uncaught := false
          stopped := false
          removeAttempted := false
          stagedFilePresent := true
          completed := false }
      else
        match o.transcribeResult with
        | .error e =>
          { messages := [Msg.fileInfo, Msg.savedInfo,
              (match e with
                | TranscriptionErr.runtime _ => Msg.runtimeError
                | TranscriptionErr.other _ => Msg.otherError),
              Msg.failedWarning]
            uncaught := false
            stopped := false
            removeAttempted := true
            stagedFilePresent := !o.removeOk
            completed := false }
        | .ok _ =>
          { messages := [Msg.fileInfo, Msg.savedInfo, Msg.finishedSuccess]
            uncaught := false
            stopped := false
            removeAttempted := true
            stagedFilePresent := !o.removeOk
            completed := true }

/-- One full script run: the ffmpeg check (lines 72-81) emits either the
success or the warning message and the pipeline proceeds either way, then
the uploaded-file flow runs. -/
def runScript {α : Type} (o : Oracles α) : RunOutcome :=
  let pre := if o.decoderAvailable then Msg.ffmpegFound else Msg.ffmpegWarning
  let core := runScriptCore o
  { core with messages := pre :: core.messages }

theorem runScriptCore_decoder_irrelevant {α : Type} (o : Oracles α) (b : Bool) :
    runScriptCore {o with decoderAvailable := b} = runScriptCore o := rfl

/-- C2 counterexample: a run in which the staging write fails.  The failure
is surfaced as the `stagingError` message, but the script then re-raises
(`raise` on line 107), so the fault DOES propagate uncaught to the
presentation shell — refuting the claim that no error propagates. -/
theorem staging_failure_propagates :
    (runScript (⟨true, false, .ok 0, false, .ok ⟨"", []⟩, true⟩ : Oracles ℕ)).uncaught
        = true ∧
      Msg.stagingError ∈
        (runScript (⟨true, false, .ok 0, false, .ok ⟨"", []⟩, true⟩ : Oracles ℕ)).messages := by
  constructor
  · rfl
  · simp [runScript, runScriptCore]

/-- C2 (amended): every modeled error except a staging-write failure is
caught at the orchestrator boundary and converted into a user-visible
message (the run never propagates an uncaught fault when staging
succeeds); a staging-write failure is surfaced as a user-visible message,
no further pipeline state is entered, but the exception is then re-raised
and propagates to the presentation shell. -/
theorem error_propagation_policy {α : Type} (o : Oracles α) :
    (o.writeOk = false →
      Msg.stagingError ∈ (runScript o).messages ∧
      (runScript o).uncaught = true ∧
      (runScript o).removeAttempted = false ∧
      (runScript o).completed = false) ∧
    (o.writeOk = true → (runScript o).uncaught = false) := by
  obtain ⟨d, w, lr, btn, tr, rm⟩ := o
  constructor
  · intro hw
    subst hw
    simp [runScript, runScriptCore]
  · intro hw
    subst hw
    rcases lr with e | m
    · simp [runScript, runScriptCore]
    · rcases btn with _ | _ <;> rcases tr with e | r <;>
        simp [runScript, runScriptCore]

/-- C2 witness: the amended policy applied to one run with a failing
staging write and one with a succeeding one. -/
theorem error_propagation_policy_witness :
    (Msg.stagingError ∈
        (runScript (⟨true, false, .ok 0, false,
          .ok ⟨"", []⟩, true⟩ : Oracles ℕ)).messages ∧
      (runScript (⟨true, false, .ok 0, false,
          .ok ⟨"", []⟩, true⟩ : Oracles ℕ)).uncaught = true ∧
      (runScript (⟨true, false, .ok 0, false,
          .ok ⟨"", []⟩, true⟩ : Oracles ℕ)).removeAttempted = false ∧
      (runScript (⟨true, false, .ok 0, false,
          .ok ⟨"", []⟩, true⟩ : Oracles ℕ)).completed = false) ∧
    (runScript (⟨true, true, .ok 0, true, .ok ⟨"", []⟩, true⟩ : Oracles ℕ)).uncaught
      = false := by
  constructor
  · exact (error_propagation_policy
      (⟨true, false, .ok 0, false,
        .ok ⟨"", []⟩, true⟩ : Oracles ℕ)).1 rfl
  · exact (error_propagation_policy
      (⟨true, true, .ok 0, true, .ok ⟨"", []⟩, true⟩ : Oracles ℕ)).2 rfl

/-- C3: whenever a request reaches one of the terminal states — the model
failed to load, or transcription was attempted and succeeded or failed —
the removal of the transient staged file is attempted; when the removal
succeeds the file is absent from storage; and a failure of the removal
itself is swallowed: it changes no message, never escapes as an uncaught
fault, and alters no other observable of the run. -/
theorem cleanup_guarantee {α : Type} (o : Oracles α)
    (hw : o.writeOk = true)
    (hterm : (∃ e, o.loadResult = .error e) ∨ o.transcribeBtn = true) :
    (runScript o).removeAttempted = true ∧
    (o.removeOk = true → (runScript o).stagedFilePresent = false) ∧
    (runScript o).uncaught = false ∧
    (runScript {o with removeOk := false}).messages = (runScript o).messages ∧
    (runScript {o with removeOk := false}).uncaught = false ∧
    (runScript {o with removeOk := false}).stopped = (runScript o).stopped ∧
    (runScript {o with removeOk := false}).completed = (runScript o).completed := by
  obtain ⟨d, w, lr, btn, tr, rm⟩ := o
  subst hw
  rcases hterm with ⟨e, he⟩ | hbtn
  · subst he
    simp [runScript, runScriptCore]
  · subst hbtn
    rcases lr with e | m
    · simp [runScript, runScriptCore]
    · rcases tr with e | r <;> simp [runScript, runScriptCore]

/-- C3 witness: the cleanup guarantee applied to a concrete successful
transcription run. -/
theorem cleanup_guarantee_witness :
    (runScript (⟨true, true, .ok 0, true, .ok ⟨"", []⟩, true⟩ : Oracles ℕ)).removeAttempted
        = true ∧
      (true = true →
        (runScript (⟨true, true, .ok 0, true, .ok ⟨"", []⟩, true⟩ : Oracles ℕ)).stagedFilePresent
          = false) ∧
      (runScript (⟨true, true, .ok 0, true, .ok ⟨"", []⟩, true⟩ : Oracles ℕ)).uncaught = false ∧
      (runScript ({(⟨true, true, .ok 0, true, .ok ⟨"", []⟩, true⟩ : Oracles ℕ) with
            removeOk := false})).messages =
        (runScript (⟨true, true, .ok 0, true, .ok ⟨"", []⟩, true⟩ : Oracles ℕ)).messages ∧
      (runScript ({(⟨true, true, .ok 0, true, .ok ⟨"", []⟩, true⟩ : Oracles ℕ) with
            removeOk := false})).uncaught = false ∧
      (runScript ({(⟨true, true, .ok 0, true, .ok ⟨"", []⟩, true⟩ : Oracles ℕ) with
            removeOk := false})).stopped =
        (runScript (⟨true, true, .ok 0, true, .ok ⟨"", []⟩, true⟩ : Oracles ℕ)).stopped ∧
      (runScript ({(⟨true, true, .ok 0, true, .ok ⟨"", []⟩, true⟩ : Oracles ℕ) with
            removeOk := false})).completed =
        (runScript (⟨true, true, .ok 0, true, .ok ⟨"", []⟩, true⟩ : Oracles ℕ)).completed :=
  cleanup_guarantee (⟨true, true, .ok 0, true, .ok ⟨"", []⟩, true⟩ : Oracles ℕ)
    rfl (Or.inr rfl)

/-- C8: when the decoder is not discoverable the run emits the warning as
its first message and is otherwise observably identical to the run with the
decoder present — it still proceeds through staging, model load and
transcription, and decoder absence alone never produces a request failure:
with all other oracles succeeding and the button pressed, the run still
completes. -/
theorem decoder_absence_nonfatal {α : Type} (o : Oracles α) :
    (runScript {o with decoderAvailable := false}).messages.head?
        = some Msg.ffmpegWarning ∧
    (runScript {o with decoderAvailable := false}).messages.tail
        = (runScript {o with decoderAvailable := true}).messages.tail ∧
    (runScript {o with decoderAvailable := false}).uncaught
        = (runScript {o with decoderAvailable := true}).uncaught ∧
    (runScript {o with decoderAvailable := false}).stopped
        = (runScript {o with decoderAvailable := true}).stopped ∧
    (runScript {o with decoderAvailable := false}).removeAttempted
        = (runScript {o with decoderAvailable := true}).removeAttempted ∧
    (runScript {o with decoderAvailable := false}).stagedFilePresent
        = (runScript {o with decoderAvailable := true}).stagedFilePresent ∧
    (runScript {o with decoderAvailable := false}).completed
        = (runScript {o with decoderAvailable := true}).completed ∧
    (o.writeOk = true → o.transcribeBtn = true →
      (∃ m, o.loadResult = .ok m) → (∃ r, o.transcribeResult = .ok r) →
      (runScript {o with decoderAvailable := false}).completed = true) := by
  refine ⟨rfl, rfl, rfl, rfl, rfl, rfl, rfl, ?_⟩
  intro hw hbtn ⟨m, hm⟩ ⟨r, hr⟩
  obtain ⟨d, w, lr, btn, tr, rm⟩ := o
  simp only at hw hbtn hm hr
  subst hw hbtn hm hr
  simp [runScript, runScriptCore]

/-- C8 witness: the decoder-absence theorem applied to a run with every
other oracle succeeding. -/
theorem decoder_absence_nonfatal_witness :
    (runScript ({(⟨true, true, .ok 0, true, .ok ⟨"", []⟩, true⟩ : Oracles ℕ) with
          decoderAvailable := false})).messages.head? = some Msg.ffmpegWarning ∧
    (runScript ({(⟨true, true, .ok 0, true, .ok ⟨"", []⟩, true⟩ : Oracles ℕ) with
          decoderAvailable := false})).completed = true :=
  ⟨(decoder_absence_nonfatal (⟨true, true, .ok 0, true, .ok ⟨"", []⟩, true⟩ : Oracles ℕ)).1,
    (decoder_absence_nonfatal (⟨true, true, .ok 0, true, .ok ⟨"", []⟩, true⟩ : Oracles ℕ)).2.2.2.2.2.2.2
      rfl rfl ⟨0, rfl⟩ ⟨⟨"", []⟩, rfl⟩⟩
